import Mathlib

/-!
Verification of the `smart_daily_planner` backend (`src/main.py`) against its
natural-language specification.

The embedding models the server state that matters to the claims — the single
token file under `tokens/google_token.json` — as an `Option String`
(`none` = file absent, `some s` = file present with content `s`).  Outbound
HTTP calls to third-party providers are modelled as explicit function
parameters, and each handler additionally reports how many provider calls it
performed.  JSON bodies are modelled with a small `Json` inductive.
Library functions whose code is not in the repository
(`Credentials.from_authorized_user_file`, `creds.to_json`,
`flow.fetch_token`, the Google API client) are abstract parameters; fallible
Python code (exceptions) is modelled with `Except String`.
-/

/-- A small model of JSON values, enough for the response bodies built in
`main.py`. -/
inductive Json where
  | null : Json
  | str : String → Json
  | num : Int → Json
  | arr : List Json → Json
  | obj : List (String × Json) → Json

/-- An HTTP response as produced by a handler: a status code and a JSON body.
FastAPI returns status 200 for a plain returned value; `JSONResponse` with
an explicit `status_code` sets the given status. -/
structure HttpResponse where
  status : Nat
  body : Json

/-- Model of a `google.oauth2.credentials.Credentials` object.  The fields the
claims need are opaque; a `Credentials` value in Python is always truthy
(there is no `__bool__` override), so `if not creds:` in the handlers is
exactly a `none` test on the `Option Credentials` returned by the loader. -/
structure Credentials where
  token : String

/-- Embedding of `load_google_creds` from `main.py`:

    def load_google_creds():
        token_path = os.path.join(TOKENS_DIR, "google_token.json")
        if not os.path.exists(token_path):
            return None
        return Credentials.from_authorized_user_file(token_path, scopes=SCOPES)

`tokenFile` is the state of `tokens/google_token.json`; `parse` models the
library deserializer `Credentials.from_authorized_user_file`, which may raise
(modelled as `Except.error`).  When the file is absent the function returns
`None` without touching the deserializer. -/
def load_google_creds (parse : String → Except String Credentials)
    (tokenFile : Option String) : Except String (Option Credentials) :=
  match tokenFile with
  | none => Except.ok none
  | some content => (parse content).map some

/-- The literal 401 body `JSONResponse({"error":"not_authenticated"}, status_code=401)`
returned by every delegated-access handler when no credential is stored. -/
def notAuthenticatedResponse : HttpResponse :=
  { status := 401, body := Json.obj [("error", Json.str "not_authenticated")] }

/-- The `event` dictionary built inside `create_event`. -/
def createEventBody (summary start_iso end_iso : String) : Json :=
  Json.obj
    [("summary", Json.str summary),
     ("start", Json.obj [("dateTime", Json.str start_iso)]),
     ("end", Json.obj [("dateTime", Json.str end_iso)])]

/-- Embedding of `create_event` from `main.py` (POST /api/create_event).  Here `insertEvent`
models the provider call `service.events().insert(...).execute()` with the
primary calendar id, the single outbound provider call; the result counts
how many provider calls were made. -/
def create_event (parse : String → Except String Credentials)
    (insertEvent : Credentials → Json → Except String Json)
    (tokenFile : Option String)
    (summary start_iso end_iso : String) : Except String HttpResponse × Nat :=
  match load_google_creds parse tokenFile with
  | Except.error e => (Except.error e, 0)
  | Except.ok none => (Except.ok notAuthenticatedResponse, 0)
  | Except.ok (some creds) =>
      match insertEvent creds (createEventBody summary start_iso end_iso) with
      | Except.error e => (Except.error e, 1)
      | Except.ok ev => (Except.ok { status := 200, body := ev }, 1)

/-- Embedding of `gmail_threads` from `main.py` (GET /api/gmail_threads); `listThreads`
models `service.users().threads().list(userId="me", maxResults=10).execute()`. -/
def gmail_threads (parse : String → Except String Credentials)
    (listThreads : Credentials → Except String Json)
    (tokenFile : Option String) : Except String HttpResponse × Nat :=
  match load_google_creds parse tokenFile with
  | Except.error e => (Except.error e, 0)
  | Except.ok none => (Except.ok notAuthenticatedResponse, 0)
  | Except.ok (some creds) =>
      match listThreads creds with
      | Except.error e => (Except.error e, 1)
      | Except.ok threads => (Except.ok { status := 200, body := threads }, 1)

/-- Embedding of `gmail_send` from `main.py` (POST /api/gmail_send); `encodeRaw` models
the MIME construction plus `base64.urlsafe_b64encode`; `sendMessage` models
`service.users().messages().send(userId="me", body=...).execute()`. -/
def gmail_send (parse : String → Except String Credentials)
    (encodeRaw : String → String → String → String)
    (sendMessage : Credentials → Json → Except String Json)
    (tokenFile : Option String)
    (recipient subject body : String) : Except String HttpResponse × Nat :=
  match load_google_creds parse tokenFile with
  | Except.error e => (Except.error e, 0)
  | Except.ok none => (Except.ok notAuthenticatedResponse, 0)
  | Except.ok (some creds) =>
      let raw := encodeRaw recipient subject body
      match sendMessage creds (Json.obj [("raw", Json.str raw)]) with
      | Except.error e => (Except.error e, 1)
      | Except.ok conf => (Except.ok { status := 200, body := conf }, 1)

/-- The `RedirectResponse("/?auth=ok")` returned on a successful OAuth
callback; the body field records the redirect target. -/
def authOkRedirect : HttpResponse :=
  { status := 302, body := Json.str "/?auth=ok" }

/-- Embedding of `oauth2callback` from `main.py` (GET /oauth2callback):

    flow.fetch_token(authorization_response=full_url)
    creds = flow.credentials
    with open(token_path, "w") as f:
        f.write(creds.to_json())
    return RedirectResponse("/?auth=ok")

`fetchToken` models `flow.fetch_token` followed by `flow.credentials` (the
library code exchange, which raises on an invalid/expired code or a network
error); `to_json` models `creds.to_json()`.  The result pairs the response (or propagated exception) with the new state of the token file:
when `fetch_token` raises, the `open`/`write` is never reached, so the file
keeps its previous state. -/
def oauth2callback (fetchToken : String → Except String Credentials)
    (to_json : Credentials → String)
    (tokenFile : Option String) (full_url : String) :
    Except String HttpResponse × Option String :=
  match fetchToken full_url with
  | Except.error e => (Except.error e, tokenFile)
  | Except.ok creds => (Except.ok authOkRedirect, some (to_json creds))

/-- Render an optional integer field into JSON (`None` becomes `null`). -/
def optJsonNum : Option Int → Json
  | none => Json.null
  | some n => Json.num n

/-- Render an optional string field into JSON (`None` becomes `null`). -/
def optJsonStr : Option String → Json
  | none => Json.null
  | some s => Json.str s

/-- The fields of `ticker.info` read by `fetch_stock_price`; each may be
absent (`info.get` returns `None`).  Prices are modelled as integers: only
which value is selected matters to the claims, not float arithmetic. -/
structure TickerInfo where
  regularMarketPrice : Option Int
  shortName : Option String
  currency : Option String

/-- The price selection in `fetch_stock_price` from `main.py`:

    price = info.get("regularMarketPrice")
    if price is None:
        hist = ticker.history(period="1d")
        if not hist.empty:
            price = float(hist["Close"].iloc[-1])

`histCloses` is the `Close` column of the one-day history; `iloc[-1]` is its
last element.  When the history is empty the price stays `None`. -/
def stockPrice (info : TickerInfo) (histCloses : List Int) : Option Int :=
  match info.regularMarketPrice with
  | some p => some p
  | none => if histCloses.isEmpty then none else histCloses.getLast?

/-- Embedding of `fetch_stock_price` from `main.py`: the returned dictionary
`{"symbol": ..., "price": ..., "info_head": {k: info.get(k) for k in
["shortName","currency"]}}`. -/
def fetch_stock_price (symbol : String) (info : TickerInfo)
    (histCloses : List Int) : Json :=
  Json.obj
    [("symbol", Json.str symbol),
     ("price", optJsonNum (stockPrice info histCloses)),
     ("info_head", Json.obj
        [("shortName", optJsonStr info.shortName),
         ("currency", optJsonStr info.currency)])]

/-- Embedding of `get_stock` from `main.py` (GET /api/stock): runs `fetch_stock_price` in
a threadpool and returns its dictionary, which FastAPI serves with
status 200. -/
def get_stock (symbol : String) (info : TickerInfo)
    (histCloses : List Int) : HttpResponse :=
  { status := 200, body := fetch_stock_price symbol info histCloses }

/-- A parsed feed entry as used by the `news` handler: `e.title` and
`e.link` are attribute accesses (present on every entry the loop consumes),
`e.get("published")` may be absent. -/
structure FeedEntry where
  title : String
  link : String
  published : Option String

/-- One iteration of the `news` loop: the dictionary appended to `items`. -/
def newsItem (e : FeedEntry) : Json :=
  Json.obj
    [("title", Json.str e.title),
     ("link", Json.str e.link),
     ("published", optJsonStr e.published)]

/-- The `items` list built by `news` in `main.py`:

    items = []
    for e in d.entries[:12]:
        items.append({"title": e.title, "link": e.link, "published": e.get("published")})

modelled as a left fold over the first twelve entries, appending one
dictionary per iteration. -/
def newsItems (entries : List FeedEntry) : List Json :=
  (entries.take 12).foldl (fun acc e => acc ++ [newsItem e]) []

/-- The feed URL built by `news`: spaces of the query are replaced by `+`. -/
def news_rss_url (query : String) : String :=
  "https://news.google.com/rss/search?q=" ++ (query.replace " " "+")
    ++ "&hl=en-IN&gl=IN&ceid=IN:en"

/-- Embedding of `news` from `main.py` (GET /api/news): the returned body
`{"query": query, "items": items}`. -/
def news (query : String) (entries : List FeedEntry) : Json :=
  Json.obj [("query", Json.str query), ("items", Json.arr (newsItems entries))]

/-- The outbound request issued by the `sports` handler: either
`GET base/KEY/searchteams.php?t=TEAM` (when `team` is truthy) or
`GET base/KEY/search_all_teams.php?l=SPORT`. -/
inductive SportsRequest where
  | searchTeams (key t : String)
  | searchAllTeams (key l : String)

/-- The request selection in `sports` from `main.py` (GET /api/sports):

    key = SPORTSDB_KEY or "1"
    if team:
        r = await client.get(f"base/key/searchteams.php", params=dict(t=team))
    else:
        r = await client.get(f"base/key/search_all_teams.php", params=dict(l=sport))

`SPORTSDB_KEY or "1"` and `if team:` test Python string truthiness, i.e.
non-emptiness. -/
def sportsRequest (SPORTSDB_KEY sport team : String) : SportsRequest :=
  let key := if SPORTSDB_KEY ≠ "" then SPORTSDB_KEY else "1"
  if team ≠ "" then SportsRequest.searchTeams key team
  else SportsRequest.searchAllTeams key sport

/-- Embedding of `sports` from `main.py`: the response is the upstream passthrough of the
selected request (`r.raise_for_status()` failures propagate as errors). -/
def sports (upstream : SportsRequest → Except String Json)
    (SPORTSDB_KEY sport team : String) : Except String Json :=
  upstream (sportsRequest SPORTSDB_KEY sport team)

/-- A genre entry of the TMDB `genre/movie/list` response: `{"id": ..,
"name": ..}`. -/
structure Genre where
  id : Int
  name : String

/-- The parameter dictionary passed to the TMDB `discover/movie` call:
`api_key`, `page`, and possibly `with_genres`. -/
structure DiscoverParams where
  api_key : String
  page : Int
  with_genres : Option Int

/-- Models Python `str.lower()` as per-character lowercasing (faithful on
the ASCII genre names involved). -/
def pyLower (s : String) : String := String.mk (s.data.map Char.toLower)

/-- The genre-resolution loop in `movies` from `main.py`:

    genre_id = None
    for g in genres:
        if g["name"].lower() == genre.lower():
            genre_id = g["id"]
            break

returns the id of the first case-insensitive exact match, else `None`. -/
def findGenreId : List Genre → String → Option Int
  | [], _ => none
  | g :: gs, genre =>
      if pyLower g.name = pyLower genre then some g.id else findGenreId gs genre

/-- The `params` dictionary built by `movies`: `with_genres` is added only
under `if genre_id:`, i.e. only when the resolved id is truthy — not `None`
and not the integer `0`. -/
def discoverParams (TMDB_API_KEY : String) (genres : List Genre)
    (genre : String) (page : Int) : DiscoverParams :=
  { api_key := TMDB_API_KEY, page := page,
    with_genres :=
      match findGenreId genres genre with
      | none => none
      | some i => if i = 0 then none else some i }

/-- The fixed fallback body returned by `movies` when no TMDB key is
configured. -/
def moviesFallback : Json :=
  Json.obj [("results", Json.arr
    [Json.obj [("title", Json.str "Inception"),
               ("genres", Json.arr [Json.str "Action", Json.str "Sci-Fi"])],
     Json.obj [("title", Json.str "The Shawshank Redemption"),
               ("genres", Json.arr [Json.str "Drama"])]])]

/-- Embedding of `movies` from `main.py` (GET /api/movies).  Here `if TMDB_API_KEY:` tests
string truthiness (non-emptiness).  `fetchGenres` models the
`genre/movie/list` call (returning `genres_r.json().get("genres",[])`) and
`discover` the `discover/movie` call; the second component counts outbound
calls. -/
def movies (TMDB_API_KEY : String)
    (fetchGenres : Unit → Except String (List Genre))
    (discover : DiscoverParams → Except String Json)
    (genre : String) (page : Int) : Except String Json × Nat :=
  if TMDB_API_KEY ≠ "" then
    match fetchGenres () with
    | Except.error e => (Except.error e, 1)
    | Except.ok genres =>
        match discover (discoverParams TMDB_API_KEY genres genre page) with
        | Except.error e => (Except.error e, 2)
        | Except.ok j => (Except.ok j, 2)
  else
    (Except.ok moviesFallback, 0)

/-- The outbound Overpass call issued by `places`: POST `url` with `body` as
the plain-text request body. -/
structure OverpassRequest where
  url : String
  body : String

/-- The Overpass QL query built by `places` in `main.py`, an f-string:

    [out:json][timeout:25];
    (
      node(around:{radius},{lat},{lon})[amenity={amenity}];
      way(around:{radius},{lat},{lon})[amenity={amenity}];
      relation(around:{radius},{lat},{lon})[amenity={amenity}];
    );
    out center 20;

(each line preceded by a newline and four spaces of triple-quote
indentation, with two further spaces before the three clauses).  `radius` is
a Python `int`; `latS`/`lonS` are the rendered float coordinates (float
rendering itself is not modelled).  The concatenation is chunked at the
interpolation points and at clause boundaries. -/
def placesQuery (radius : Int) (latS lonS amenity : String) : String :=
  "\n    [out:json][timeout:25];\n    (\n      " ++
    ("node(around:" ++ toString radius ++ "," ++ latS ++ "," ++ lonS ++
      ")[amenity=" ++ amenity ++ "];") ++
  "\n      " ++
    ("way(around:" ++ toString radius ++ "," ++ latS ++ "," ++ lonS ++
      ")[amenity=" ++ amenity ++ "];") ++
  "\n      " ++
    ("relation(around:" ++ toString radius ++ "," ++ latS ++ "," ++ lonS ++
      ")[amenity=" ++ amenity ++ "];") ++
  "\n    );\n    " ++ "out center 20;" ++ "\n    "

/-- Embedding of `places` from `main.py` (GET /api/places): posts the query to the
Overpass interpreter endpoint. -/
def places (latS lonS : String) (radius : Int) (amenity : String) :
    OverpassRequest :=
  { url := "https://overpass-api.de/api/interpreter",
    body := placesQuery radius latS lonS amenity }

/-- Predicate: `needle` occurs verbatim as a contiguous run inside `hay`. -/
def containsSubstring (hay needle : String) : Prop :=
  ∃ p s : String, hay = p ++ needle ++ s

/-- C1: every delegated-access endpoint (POST /api/create_event,
GET /api/gmail_threads, POST /api/gmail_send) called while the token file is
absent returns the JSON body `error: "not_authenticated"` with HTTP status
401 and performs zero outbound provider calls, whatever the deserializer,
the provider behaviour and the request parameters are. -/
theorem delegated_endpoints_unauthenticated
    (parse : String → Except String Credentials)
    (insertEvent : Credentials → Json → Except String Json)
    (listThreads : Credentials → Except String Json)
    (encodeRaw : String → String → String → String)
    (sendMessage : Credentials → Json → Except String Json)
    (summary start_iso end_iso recipient subject body : String) :
    create_event parse insertEvent none summary start_iso end_iso =
      (Except.ok notAuthenticatedResponse, 0) ∧
    gmail_threads parse listThreads none =
      (Except.ok notAuthenticatedResponse, 0) ∧
    gmail_send parse encodeRaw sendMessage none recipient subject body =
      (Except.ok notAuthenticatedResponse, 0) ∧
    notAuthenticatedResponse.status = 401 ∧
    notAuthenticatedResponse.body = Json.obj [("error", Json.str "not_authenticated")] :=
  ⟨rfl, rfl, rfl, rfl, rfl⟩

/-- C2: if the authorization-code exchange in GET /oauth2callback fails, the
request fails with the exchange error and the stored credential state is
unchanged — no token file is written — so with no token file stored
beforehand a subsequent delegated-access call still answers
`not_authenticated` with 401 and zero provider calls. -/
theorem oauth2callback_failure_atomic
    (fetchToken : String → Except String Credentials)
    (to_json : Credentials → String)
    (parse : String → Except String Credentials)
    (insertEvent : Credentials → Json → Except String Json)
    (tokenFile : Option String) (full_url e : String)
    (summary start_iso end_iso : String)
    (hfail : fetchToken full_url = Except.error e) :
    (oauth2callback fetchToken to_json tokenFile full_url).1 = Except.error e ∧
    (oauth2callback fetchToken to_json tokenFile full_url).2 = tokenFile ∧
    (tokenFile = none →
      create_event parse insertEvent
          (oauth2callback fetchToken to_json tokenFile full_url).2
          summary start_iso end_iso =
        (Except.ok notAuthenticatedResponse, 0)) := by
  refine ⟨?_, ?_, ?_⟩ <;> simp only [oauth2callback, hfail]
  intro h
  subst h
  rfl

/-- C2 witness: a concrete failing exchange starting from an absent token
file. -/
theorem oauth2callback_failure_atomic_witness :
    (oauth2callback (fun _ => Except.error "invalid_grant") Credentials.token
        none "http://localhost:8000/oauth2callback?code=bad").1 =
      Except.error "invalid_grant" ∧
    (oauth2callback (fun _ => Except.error "invalid_grant") Credentials.token
        none "http://localhost:8000/oauth2callback?code=bad").2 = none ∧
    ((none : Option String) = none →
      create_event (fun s => Except.ok { token := s })
          (fun _ _ => Except.ok Json.null)
          (oauth2callback (fun _ => Except.error "invalid_grant") Credentials.token
            none "http://localhost:8000/oauth2callback?code=bad").2
          "meeting" "2025-01-01T10:00:00" "2025-01-01T11:00:00" =
        (Except.ok notAuthenticatedResponse, 0)) :=
  oauth2callback_failure_atomic (fun _ => Except.error "invalid_grant")
    Credentials.token (fun s => Except.ok { token := s })
    (fun _ _ => Except.ok Json.null) none
    "http://localhost:8000/oauth2callback?code=bad" "invalid_grant"
    "meeting" "2025-01-01T10:00:00" "2025-01-01T11:00:00" rfl

/-- C3: a successful exchange persists the serialized credential
(overwriting any prior token file), and — provided the library round-trips
the serialization, which is what `creds.to_json` and
`Credentials.from_authorized_user_file` implement — a subsequent
delegated-access load finds a present credential and the handler proceeds
past the authentication check to the provider call (exactly one provider
call, never the 401 body). -/
theorem oauth2callback_success_roundtrip
    (fetchToken : String → Except String Credentials)
    (to_json : Credentials → String)
    (parse : String → Except String Credentials)
    (insertEvent : Credentials → Json → Except String Json)
    (tokenFile : Option String) (full_url : String)
    (creds : Credentials)
    (summary start_iso end_iso : String)
    (hsucc : fetchToken full_url = Except.ok creds)
    (hround : parse (to_json creds) = Except.ok creds) :
    oauth2callback fetchToken to_json tokenFile full_url =
      (Except.ok authOkRedirect, some (to_json creds)) ∧
    load_google_creds parse
        (oauth2callback fetchToken to_json tokenFile full_url).2 =
      Except.ok (some creds) ∧
    create_event parse insertEvent
        (oauth2callback fetchToken to_json tokenFile full_url).2
        summary start_iso end_iso =
      (match insertEvent creds (createEventBody summary start_iso end_iso) with
       | Except.error err => (Except.error err, 1)
       | Except.ok ev => (Except.ok { status := 200, body := ev }, 1)) := by
  refine ⟨?_, ?_, ?_⟩ <;>
    simp only [oauth2callback, hsucc, load_google_creds, create_event, hround,
      Except.map]

/-- C3 witness: a concrete successful exchange with an explicit round-tripping
serializer, overwriting a previously stored file. -/
theorem oauth2callback_success_roundtrip_witness :
    oauth2callback (fun _ => Except.ok { token := "tok" }) Credentials.token
        (some "old") "http://localhost:8000/oauth2callback?code=good" =
      (Except.ok authOkRedirect, some "tok") ∧
    load_google_creds (fun s => Except.ok { token := s })
        (oauth2callback (fun _ => Except.ok { token := "tok" }) Credentials.token
          (some "old") "http://localhost:8000/oauth2callback?code=good").2 =
      Except.ok (some { token := "tok" }) ∧
    create_event (fun s => Except.ok { token := s })
        (fun _ _ => Except.ok (Json.str "created"))
        (oauth2callback (fun _ => Except.ok { token := "tok" }) Credentials.token
          (some "old") "http://localhost:8000/oauth2callback?code=good").2
        "meeting" "2025-01-01T10:00:00" "2025-01-01T11:00:00" =
      (Except.ok { status := 200, body := Json.str "created" }, 1) :=
  oauth2callback_success_roundtrip (fun _ => Except.ok { token := "tok" })
    Credentials.token (fun s => Except.ok { token := s })
    (fun _ _ => Except.ok (Json.str "created")) (some "old")
    "http://localhost:8000/oauth2callback?code=good" { token := "tok" }
    "meeting" "2025-01-01T10:00:00" "2025-01-01T11:00:00" rfl rfl

/-- C10: the credential loader returns the absent sentinel (`None`) exactly
when the token file does not exist; when the file exists but the library
deserializer fails on its content, the loader propagates the error instead of
returning the sentinel, so a delegated-access handler surfaces a server error
(a propagated exception) rather than the 401 `not_authenticated` body. -/
theorem load_google_creds_absent_sentinel
    (parse : String → Except String Credentials)
    (insertEvent : Credentials → Json → Except String Json)
    (tokenFile : Option String)
    (summary start_iso end_iso : String) :
    (load_google_creds parse tokenFile = Except.ok none ↔ tokenFile = none) ∧
    (∀ content err, tokenFile = some content → parse content = Except.error err →
      load_google_creds parse tokenFile = Except.error err ∧
      create_event parse insertEvent tokenFile summary start_iso end_iso =
        (Except.error err, 0)) := by
  refine ⟨⟨?_, ?_⟩, ?_⟩
  · intro h
    cases tokenFile with
    | none => rfl
    | some content =>
        simp only [load_google_creds] at h
        cases hp : parse content <;> rw [hp] at h <;> simp [Except.map] at h
  · intro h
    subst h
    rfl
  · intro content err hfile hparse
    subst hfile
    constructor <;> simp only [load_google_creds, create_event, hparse, Except.map]

/-- C10 witness: a present but undeserializable token file makes the loader
and the delegated-access handler fail with the parse error, not with the 401
body; an absent file yields the sentinel. -/
theorem load_google_creds_absent_sentinel_witness :
    ((load_google_creds (fun _ => Except.error "bad json") (some "garbage") =
        Except.ok none ↔ (some "garbage" : Option String) = none) ∧
      (∀ content err, (some "garbage" : Option String) = some content →
        (fun _ => Except.error "bad json" : String → Except String Credentials)
            content = Except.error err →
        load_google_creds (fun _ => Except.error "bad json") (some "garbage") =
          Except.error err ∧
        create_event (fun _ => Except.error "bad json")
            (fun _ _ => Except.ok Json.null) (some "garbage")
            "m" "s" "e" = (Except.error err, 0))) :=
  load_google_creds_absent_sentinel (fun _ => Except.error "bad json")
    (fun _ _ => Except.ok Json.null) (some "garbage") "m" "s" "e"

/-- C4: GET /api/stock answers 200 with
`symbol`/`price`/`info_head.shortName`/`info_head.currency` for every
symbol; when the live quote field is absent but the daily history is
non-empty the price is the most recent daily close, and when neither source
yields a value the price is `null` and the status is still 200. -/
theorem stock_price_fallback (symbol : String) (info : TickerInfo)
    (histCloses : List Int) :
    (get_stock symbol info histCloses).status = 200 ∧
    (get_stock symbol info histCloses).body =
      Json.obj
        [("symbol", Json.str symbol),
         ("price", optJsonNum (stockPrice info histCloses)),
         ("info_head", Json.obj
            [("shortName", optJsonStr info.shortName),
             ("currency", optJsonStr info.currency)])] ∧
    (∀ p, info.regularMarketPrice = some p → stockPrice info histCloses = some p) ∧
    (∀ c, info.regularMarketPrice = none → histCloses.getLast? = some c →
      stockPrice info histCloses = some c) ∧
    (info.regularMarketPrice = none → histCloses = [] →
      stockPrice info histCloses = none) := by
  refine ⟨rfl, rfl, ?_, ?_, ?_⟩
  · intro p hp
    simp [stockPrice, hp]
  · intro c hnone hlast
    cases histCloses with
    | nil => simp at hlast
    | cons x xs => simp [stockPrice, hnone, hlast]
  · intro hnone hnil
    subst hnil
    simp [stockPrice, hnone]

/-- C4 witness: a symbol with no live quote but a non-empty daily history
gets the last close 101; with neither source the price is `null`; the
status is 200 in both cases. -/
theorem stock_price_fallback_witness :
    ((get_stock "MSFT" ⟨none, some "Microsoft", some "USD"⟩ [100, 101]).status = 200 ∧
      stockPrice ⟨none, some "Microsoft", some "USD"⟩ [100, 101] = some 101) ∧
    stockPrice ⟨none, none, none⟩ [] = none :=
  ⟨⟨(stock_price_fallback "MSFT" ⟨none, some "Microsoft", some "USD"⟩ [100, 101]).1,
    (stock_price_fallback "MSFT" ⟨none, some "Microsoft", some "USD"⟩
        [100, 101]).2.2.2.1 101 rfl (by decide)⟩,
    (stock_price_fallback "MSFT" ⟨none, none, none⟩ []).2.2.2.2 rfl rfl⟩

/-- Appending one element per iteration of a left fold builds the map of the
list, in order. -/
theorem foldl_append_singleton {α β : Type} (f : α → β) (l : List α) :
    ∀ acc : List β, l.foldl (fun acc e => acc ++ [f e]) acc = acc ++ l.map f := by
  induction l with
  | nil => intro acc; simp
  | cons x xs ih => intro acc; simp [List.foldl, ih]

/-- C7: GET /api/news returns at most 12 items — the first 12 feed entries
in order — each carrying the title and link of the entry, with `published` equal
to `null` exactly when the feed entry lacks it. -/
theorem news_at_most_twelve (query : String) (entries : List FeedEntry) :
    news query entries =
      Json.obj [("query", Json.str query), ("items", Json.arr (newsItems entries))] ∧
    (newsItems entries).length ≤ 12 ∧
    newsItems entries = (entries.take 12).map newsItem ∧
    (∀ i, (h : i < (newsItems entries).length) → (h' : i < entries.length) →
      (newsItems entries)[i] = newsItem entries[i]) ∧
    (∀ e, e ∈ entries →
      newsItem e = Json.obj
        [("title", Json.str e.title),
         ("link", Json.str e.link),
         ("published", match e.published with
            | none => Json.null
            | some p => Json.str p)]) := by
  have hmap : newsItems entries = (entries.take 12).map newsItem :=
    foldl_append_singleton newsItem (entries.take 12) []
  refine ⟨rfl, ?_, hmap, ?_, ?_⟩
  · rw [hmap]
    simp [List.length_take_le 12 entries]
  · intro i h h'
    have h2 : i < ((entries.take 12).map newsItem).length := by rw [← hmap]; exact h
    simp only [hmap]
    simp [List.getElem_take]
  · intro e _
    cases hp : e.published <;> simp [newsItem, optJsonStr, hp]

/-- C7 witness: a 13-entry feed (one entry lacking `published`) yields
exactly the first 12 items in order with `null` standing for the missing
date. -/
theorem news_at_most_twelve_witness :
    (newsItems ((List.range 13).map
        (fun i => ⟨toString i, toString i, if i = 2 then none else some "d"⟩))).length ≤ 12 ∧
    newsItems ((List.range 13).map
        (fun i => ⟨toString i, toString i, if i = 2 then none else some "d"⟩)) =
      (((List.range 13).map
        (fun i => (⟨toString i, toString i, if i = 2 then none else some "d"⟩ :
          FeedEntry))).take 12).map newsItem :=
  ⟨(news_at_most_twelve "top stories" _).2.1,
   (news_at_most_twelve "top stories" _).2.2.1⟩

/-- C9: with a non-empty `team`, the outbound request of GET /api/sports is a
team-name search that does not involve `sport` at all, so for the same
upstream behaviour the request and the response are identical across any two
values of `sport`. -/
theorem sports_team_ignores_sport
    (upstream : SportsRequest → Except String Json)
    (SPORTSDB_KEY sport1 sport2 team : String) (h : team ≠ "") :
    sportsRequest SPORTSDB_KEY sport1 team = sportsRequest SPORTSDB_KEY sport2 team ∧
    sports upstream SPORTSDB_KEY sport1 team = sports upstream SPORTSDB_KEY sport2 team ∧
    sportsRequest SPORTSDB_KEY sport1 team =
      SportsRequest.searchTeams (if SPORTSDB_KEY ≠ "" then SPORTSDB_KEY else "1") team := by
  refine ⟨?_, ?_, ?_⟩ <;> simp [sports, sportsRequest, h]

/-- C9 witness: with `team = "Arsenal"`, the requests for `sport = "Soccer"`
and `sport = "Basketball"` coincide. -/
theorem sports_team_ignores_sport_witness :
    sportsRequest "" "Soccer" "Arsenal" = sportsRequest "" "Basketball" "Arsenal" ∧
    sports (fun _ => Except.ok Json.null) "" "Soccer" "Arsenal" =
      sports (fun _ => Except.ok Json.null) "" "Basketball" "Arsenal" ∧
    sportsRequest "" "Soccer" "Arsenal" =
      SportsRequest.searchTeams (if ("" : String) ≠ "" then "" else "1") "Arsenal" :=
  sports_team_ignores_sport (fun _ => Except.ok Json.null) "" "Soccer" "Basketball"
    "Arsenal" (by decide)

/-- C5: with no TMDB key configured, GET /api/movies returns the fixed
two-entry fallback list for every genre and page, with zero outbound calls,
whatever the upstream behaviour would have been. -/
theorem movies_no_key_fallback
    (fetchGenres : Unit → Except String (List Genre))
    (discover : DiscoverParams → Except String Json)
    (genre : String) (page : Int) :
    movies "" fetchGenres discover genre page = (Except.ok moviesFallback, 0) ∧
    moviesFallback =
      Json.obj [("results", Json.arr
        [Json.obj [("title", Json.str "Inception"),
                   ("genres", Json.arr [Json.str "Action", Json.str "Sci-Fi"])],
         Json.obj [("title", Json.str "The Shawshank Redemption"),
                   ("genres", Json.arr [Json.str "Drama"])]])] :=
  ⟨rfl, rfl⟩

/-- The genre-resolution loop agrees with `List.find?` on the same
case-insensitive predicate: it returns the id of the first matching genre. -/
theorem findGenreId_eq_find (genres : List Genre) (genre : String) :
    findGenreId genres genre =
      (genres.find? (fun g => pyLower g.name == pyLower genre)).map Genre.id := by
  induction genres with
  | nil => rfl
  | cons g gs ih =>
      by_cases h : pyLower g.name = pyLower genre
      · simp [findGenreId, List.find?, h]
      · have hb : (pyLower g.name == pyLower genre) = false := by simp [h]
        simp [findGenreId, List.find?, h, hb, ih]

/-- C6 counterexample: `with_genres` is added under `if genre_id:`, a Python
truthiness test, so a genre list pairing the name "Action" with the numeric
id 0 defeats the claim — the query genre "action" matches the known name,
yet no genre filter is applied (the id 0 is falsy), instead of the matched
id 0 being used as the filter. -/
theorem movies_genre_id_zero_counterexample :
    findGenreId [⟨0, "Action"⟩] "action" = some 0 ∧
    (discoverParams "key" [⟨0, "Action"⟩] "action" 1).with_genres = none ∧
    (discoverParams "key" [⟨0, "Action"⟩] "action" 1).with_genres ≠ some 0 := by
  refine ⟨by decide, by decide, by decide⟩

/-- C6 (amended): with a key configured and both upstream calls succeeding,
GET /api/movies returns the discovery result (two outbound calls, not an
error); the discovery parameters carry the key and page; a genre string that
matches no known genre name case-insensitively (including the empty default)
yields no genre filter; and when the genre matches, the
id of the first matched genre is the filter exactly when it is truthy (nonzero) —
a matched id of 0 yields no filter. -/
theorem movies_genre_filter_resolution
    (TMDB_API_KEY : String)
    (fetchGenres : Unit → Except String (List Genre))
    (discover : DiscoverParams → Except String Json)
    (genres : List Genre) (genre : String) (page : Int) (result : Json)
    (hkey : TMDB_API_KEY ≠ "")
    (hfetch : fetchGenres () = Except.ok genres)
    (hdisc : discover (discoverParams TMDB_API_KEY genres genre page) =
      Except.ok result) :
    movies TMDB_API_KEY fetchGenres discover genre page = (Except.ok result, 2) ∧
    (discoverParams TMDB_API_KEY genres genre page).api_key = TMDB_API_KEY ∧
    (discoverParams TMDB_API_KEY genres genre page).page = page ∧
    (genres.find? (fun g => pyLower g.name == pyLower genre) = none →
      (discoverParams TMDB_API_KEY genres genre page).with_genres = none) ∧
    (∀ g, genres.find? (fun g2 => pyLower g2.name == pyLower genre) = some g →
      (discoverParams TMDB_API_KEY genres genre page).with_genres =
        (if g.id = 0 then none else some g.id)) := by
  refine ⟨?_, rfl, rfl, ?_, ?_⟩
  · simp [movies, hkey, hfetch, hdisc]
  · intro hnone
    simp [discoverParams, findGenreId_eq_find, hnone]
  · intro g hg
    simp [discoverParams, findGenreId_eq_find, hg]

/-- C6 witness: with key "k", genre list `[(28, "Action")]`, query genre
"aCtIoN" and page 2, the handler returns the discovery result in two calls,
no genre matches the empty default, and the matched id 28 is used as the
filter. -/
theorem movies_genre_filter_resolution_witness :
    movies "k" (fun _ => Except.ok [⟨28, "Action"⟩]) (fun _ => Except.ok Json.null)
        "aCtIoN" 2 = (Except.ok Json.null, 2) ∧
    (discoverParams "k" [⟨28, "Action"⟩] "aCtIoN" 2).api_key = "k" ∧
    (discoverParams "k" [⟨28, "Action"⟩] "aCtIoN" 2).page = 2 ∧
    (([⟨28, "Action"⟩] : List Genre).find?
        (fun g => pyLower g.name == pyLower "aCtIoN") = none →
      (discoverParams "k" [⟨28, "Action"⟩] "aCtIoN" 2).with_genres = none) ∧
    (∀ g, ([⟨28, "Action"⟩] : List Genre).find?
        (fun g2 => pyLower g2.name == pyLower "aCtIoN") = some g →
      (discoverParams "k" [⟨28, "Action"⟩] "aCtIoN" 2).with_genres =
        (if g.id = 0 then none else some g.id)) :=
  movies_genre_filter_resolution "k" (fun _ => Except.ok [⟨28, "Action"⟩])
    (fun _ => Except.ok Json.null) [⟨28, "Action"⟩] "aCtIoN" 2 Json.null
    (by decide) rfl rfl

/-- C8: for every radius, coordinates and amenity, the query posted by
GET /api/places embeds the given radius and amenity values verbatim in each
of the node/way/relation around-clauses, and carries the output directive
`out center 20;` requesting at most 20 results with centroid output. -/
theorem places_query_embeds (radius : Int) (latS lonS amenity : String) :
    (places latS lonS radius amenity).url = "https://overpass-api.de/api/interpreter" ∧
    containsSubstring (places latS lonS radius amenity).body
      ("node(around:" ++ toString radius ++ "," ++ latS ++ "," ++ lonS ++
        ")[amenity=" ++ amenity ++ "];") ∧
    containsSubstring (places latS lonS radius amenity).body
      ("way(around:" ++ toString radius ++ "," ++ latS ++ "," ++ lonS ++
        ")[amenity=" ++ amenity ++ "];") ∧
    containsSubstring (places latS lonS radius amenity).body
      ("relation(around:" ++ toString radius ++ "," ++ latS ++ "," ++ lonS ++
        ")[amenity=" ++ amenity ++ "];") ∧
    containsSubstring (places latS lonS radius amenity).body "out center 20;" := by
  refine ⟨rfl, ?_, ?_, ?_, ?_⟩
  · refine ⟨"\n    [out:json][timeout:25];\n    (\n      ",
      "\n      " ++
        ("way(around:" ++ toString radius ++ "," ++ latS ++ "," ++ lonS ++
          ")[amenity=" ++ amenity ++ "];") ++
      "\n      " ++
        ("relation(around:" ++ toString radius ++ "," ++ latS ++ "," ++ lonS ++
          ")[amenity=" ++ amenity ++ "];") ++
      "\n    );\n    " ++ "out center 20;" ++ "\n    ", ?_⟩
    refine String.ext ?_
    simp only [places, placesQuery, String.data_append, List.append_assoc]
  · refine ⟨"\n    [out:json][timeout:25];\n    (\n      " ++
        ("node(around:" ++ toString radius ++ "," ++ latS ++ "," ++ lonS ++
          ")[amenity=" ++ amenity ++ "];") ++
      "\n      ",
      "\n      " ++
        ("relation(around:" ++ toString radius ++ "," ++ latS ++ "," ++ lonS ++
          ")[amenity=" ++ amenity ++ "];") ++
      "\n    );\n    " ++ "out center 20;" ++ "\n    ", ?_⟩
    refine String.ext ?_
    simp only [places, placesQuery, String.data_append, List.append_assoc]
  · refine ⟨"\n    [out:json][timeout:25];\n    (\n      " ++
        ("node(around:" ++ toString radius ++ "," ++ latS ++ "," ++ lonS ++
          ")[amenity=" ++ amenity ++ "];") ++
      "\n      " ++
        ("way(around:" ++ toString radius ++ "," ++ latS ++ "," ++ lonS ++
          ")[amenity=" ++ amenity ++ "];") ++
      "\n      ",
      "\n    );\n    " ++ "out center 20;" ++ "\n    ", ?_⟩
    refine String.ext ?_
    simp only [places, placesQuery, String.data_append, List.append_assoc]
  · refine ⟨"\n    [out:json][timeout:25];\n    (\n      " ++
        ("node(around:" ++ toString radius ++ "," ++ latS ++ "," ++ lonS ++
          ")[amenity=" ++ amenity ++ "];") ++
      "\n      " ++
        ("way(around:" ++ toString radius ++ "," ++ latS ++ "," ++ lonS ++
          ")[amenity=" ++ amenity ++ "];") ++
      "\n      " ++
        ("relation(around:" ++ toString radius ++ "," ++ latS ++ "," ++ lonS ++
          ")[amenity=" ++ amenity ++ "];") ++
      "\n    );\n    ", "\n    ", ?_⟩
    refine String.ext ?_
    simp only [places, placesQuery, String.data_append, List.append_assoc]
